import Mathlib

/-!
Shallow embedding of the waypoint-updater node
(`src/ros/src/waypoint_updater/waypoint_updater.py`) and proofs about its
trajectory-window and velocity-profile logic.

Conventions of the embedding:
* Python floats are modelled as real numbers (`ℝ`).
* Python lists are `List`; `l[i]` in a reading position is `List.get?`
  (a failed lookup models Python's `IndexError`).
* `int(x)` on the non-negative distances used here is `(⌊x⌋).toNat`
  (Python truncates toward zero, which on non-negative input is the floor).
* Python `range a b` is `pythonRange a b` (empty when `b ≤ a`).
* `numpy.linspace a b n` (default `endpoint=True`) is `linspace a b n`.
-/

namespace WaypointUpdaterModel

/-- A 3-D point, modelling `waypoint.pose.pose.position`. -/
structure Position where
  x : ℝ
  y : ℝ
  z : ℝ

instance : Inhabited Position := ⟨⟨0, 0, 0⟩⟩

/-- A track waypoint: its position and its longitudinal target speed
`waypoint.twist.twist.linear.x` (the only mutable field the node touches). -/
structure Waypoint where
  pos : Position
  vel : ℝ

instance : Inhabited Waypoint := ⟨⟨default, 0⟩⟩

/-- A `styx_msgs/TrafficLight` message; only the `state` field is read
(`RED = 0`, `YELLOW = 1`, `GREEN = 2`, `UNKNOWN = 4`). -/
structure TrafficLight where
  state : ℤ

/-- `LOOKAHEAD_WPS = 200` (line 37 of the source). -/
def LOOKAHEAD_WPS : ℕ := 200

/-- `VEL_THRESHOLD = 5` (line 86 of the source). -/
def VEL_THRESHOLD : ℝ := 5

/-- Python `range a b` as a list (empty when `b ≤ a`). -/
def pythonRange (a b : ℕ) : List ℕ := (List.range (b - a)).map (fun j => a + j)

/-- Position of the waypoint at index `i` (positions are only ever read at
indices that are in bounds in the executions the theorems talk about). -/
def posD (w : List Waypoint) (i : ℕ) : Position := (w.getD i default).pos

/-- The segment-length lambda `dl` of `WaypointUpdater.distance`
(line 170): Euclidean distance between two waypoint positions. -/
noncomputable def dl (a b : Position) : ℝ :=
  Real.sqrt ((a.x - b.x) ^ 2 + (a.y - b.y) ^ 2 + (a.z - b.z) ^ 2)

/-- The accumulation loop of `WaypointUpdater.distance` (lines 171-173):
state is the running sum together with the previous index `wp1`,
updated to `i` after each step. -/
noncomputable def distanceAux (w : List Waypoint) : List ℕ → ℝ → ℕ → ℝ
  | [], dist, _ => dist
  | i :: rest, dist, prev => distanceAux w rest (dist + dl (posD w prev) (posD w i)) i

/-- `WaypointUpdater.distance(waypoints, wp1, wp2)` (lines 168-174): iterates
`for i in range(wp1, wp2+1)`, adding `dl(waypoints[wp1], waypoints[i])` and
then setting `wp1 = i`; the first step adds the distance of a point to
itself. -/
noncomputable def distance (waypoints : List Waypoint) (wp1 wp2 : ℕ) : ℝ :=
  distanceAux waypoints (pythonRange wp1 (wp2 + 1)) 0 wp1

/-- `numpy.linspace a b num` with the default `endpoint=True`:
`num = 0` gives the empty array, `num = 1` gives `[a]`, and otherwise
sample `i` is `a + (b - a) * i / (num - 1)` for `i = 0, …, num - 1`. -/
noncomputable def linspace (a b : ℝ) (num : ℕ) : List ℝ :=
  if num ≤ 1 then (List.range num).map (fun _ => a)
  else (List.range num).map (fun i : ℕ => a + (b - a) * (i : ℝ) / ((num : ℝ) - 1))

/-- The list `distances` of `set_velocity_leading_to_stop_point`
(lines 80-81): per-segment distances `distance(w, i, i+1)` for
`i in range(current_pose_wp_idx, stop_point_idx + 1)`.  Note that the range
is inclusive of `stop_point_idx`, so the segment beyond the stop point is
included in the sum. -/
noncomputable def distances (waypoints : List Waypoint)
    (current_pose_wp_idx stop_point_idx : ℕ) : List ℝ :=
  (pythonRange current_pose_wp_idx (stop_point_idx + 1)).map
    (fun i => distance waypoints i (i + 1))

/-- `total_distance = int(math.floor(sum(distances)))` (line 84). -/
noncomputable def total_distance (waypoints : List Waypoint)
    (current_pose_wp_idx stop_point_idx : ℕ) : ℕ :=
  (⌊(distances waypoints current_pose_wp_idx stop_point_idx).sum⌋).toNat

/-- The local `distribution` array (lines 87-98): when the current velocity is
below `VEL_THRESHOLD`, the concatenation of a rising `linspace` from the
current velocity to the threshold and a falling `linspace` from the threshold
to `0`, each with `total_distance` samples; otherwise a single falling
`linspace` from the current velocity to `0` with `total_distance` samples. -/
noncomputable def distribution (current_velocity : ℝ) (total : ℕ) : List ℝ :=
  if current_velocity < VEL_THRESHOLD then
    linspace current_velocity VEL_THRESHOLD total ++ linspace VEL_THRESHOLD 0 total
  else
    linspace current_velocity 0 total

/-- `set_waypoint_velocity(waypoints, waypoint, velocity)` (lines 165-166):
in-place update of `waypoints[waypoint].twist.twist.linear.x`. -/
def set_waypoint_velocity (waypoints : List Waypoint) (waypoint : ℕ) (velocity : ℝ) :
    List Waypoint :=
  match waypoints.get? waypoint with
  | some wp => waypoints.set waypoint { wp with vel := velocity }
  | none => waypoints

/-- Result of the velocity-assignment loop: either the loop finished (`ok`)
or a list access raised `IndexError` (`indexError`); in both cases the
waypoint store (with the writes performed so far) is carried along, because
the writes go to the shared `Waypoint` objects. -/
inductive ProfileResult where
  | indexError (store : List Waypoint)
  | ok (store : List Waypoint)

/-- The assignment loop of `set_velocity_leading_to_stop_point`
(lines 100-106): `for wp_idx in range(current_pose_wp_idx + 1,
stop_point_idx + 1)` reads `distribution[int(distances[dist_idx])]` and
writes it with `set_waypoint_velocity`, incrementing `dist_idx`. -/
noncomputable def setVelLoop (dsts distr : List ℝ) :
    List ℕ → ℕ → List Waypoint → ProfileResult
  | [], _, store => .ok store
  | wpIdx :: rest, distIdx, store =>
    match dsts.get? distIdx with
    | none => .indexError store
    | some d =>
      match distr.get? ((⌊d⌋).toNat) with
      | none => .indexError store
      | some velocity =>
        setVelLoop dsts distr rest (distIdx + 1)
          (set_waypoint_velocity store wpIdx velocity)

/-- `set_velocity_leading_to_stop_point` (lines 77-108).  The Python method
starts with `new_waypoints = self.waypoints[:]`, which copies only the list
of references: the `Waypoint` objects themselves are shared with the
canonical track, so the velocity writes of the loop are visible through
`self.waypoints` as well (see the reference-level model below).  The store
returned here is therefore also the observable content of the canonical
track after the call. -/
noncomputable def set_velocity_leading_to_stop_point (waypoints : List Waypoint)
    (current_velocity : ℝ) (current_pose_wp_idx stop_point_idx : ℕ) : ProfileResult :=
  setVelLoop (distances waypoints current_pose_wp_idx stop_point_idx)
    (distribution current_velocity
      (total_distance waypoints current_pose_wp_idx stop_point_idx))
    (pythonRange (current_pose_wp_idx + 1) (stop_point_idx + 1)) 0 waypoints

/-! ### Reference-level (object identity) model of the working copy

Python's `new_waypoints = self.waypoints[:]` (line 78) creates a new list
object whose elements are the *same* `Waypoint` object references, and
`set_waypoint_velocity` (lines 165-166) mutates the referenced object in
place.  To make this explicit we model the object store separately: `store`
is the heap of `Waypoint` objects addressed by object id, the canonical
track `self.waypoints` is a list of object ids, and the shallow copy
duplicates only the id list.  Reads and writes go through the ids into the
store. -/

/-- The list copy `self.waypoints[:]`: a fresh list holding the same object
references (so, as a value, the same id list). -/
def shallow_copy (track : List ℕ) : List ℕ := track

/-- Reading the canonical track's speeds through its object references. -/
def canonical_vels (store : List Waypoint) (track : List ℕ) : List ℝ :=
  track.map (fun oid => (store.getD oid default).vel)

/-- The waypoint values seen through a reference list (used for the
position reads of `distance`, which happen before any write). -/
def deref (store : List Waypoint) (track : List ℕ) : List Waypoint :=
  track.map (fun oid => store.getD oid default)

/-- The assignment loop of lines 100-106 in the object-identity model:
identical to `setVelLoop` except that the write at list position `wpIdx`
lands on the object `refs[wpIdx]` of the shared store. -/
noncomputable def setVelLoopRefs (dsts distr : List ℝ) (refs : List ℕ) :
    List ℕ → ℕ → List Waypoint → ProfileResult
  | [], _, store => .ok store
  | wpIdx :: rest, distIdx, store =>
    match dsts.get? distIdx with
    | none => .indexError store
    | some d =>
      match distr.get? ((⌊d⌋).toNat) with
      | none => .indexError store
      | some velocity =>
        setVelLoopRefs dsts distr refs rest (distIdx + 1)
          (set_waypoint_velocity store (refs.getD wpIdx 0) velocity)

/-- `set_velocity_leading_to_stop_point` (lines 77-108) in the
object-identity model.  Its Python return value is the fresh reference list
`new_waypoints` (equal, as an id list, to `track`); the observable effect on
the waypoint objects is the returned store. -/
noncomputable def set_velocity_leading_to_stop_point_refs (store : List Waypoint)
    (track : List ℕ) (current_velocity : ℝ)
    (current_pose_wp_idx stop_point_idx : ℕ) : ProfileResult :=
  let new_waypoints := shallow_copy track
  setVelLoopRefs
    (distances (deref store new_waypoints) current_pose_wp_idx stop_point_idx)
    (distribution current_velocity
      (total_distance (deref store new_waypoints) current_pose_wp_idx stop_point_idx))
    new_waypoints (pythonRange (current_pose_wp_idx + 1) (stop_point_idx + 1)) 0 store

/-! ### The pose callback (Trajectory Window Builder) -/

/-- The mutable fields of `WaypointUpdater` that `pose_cb` reads or writes.
`waypoints` holds the observable content of the canonical track (None before
`waypoints_cb` has run). -/
structure UpdaterState where
  waypoints : Option (List Waypoint)
  current_velocity : ℝ
  current_traffic_light : Option TrafficLight

/-- Observable outcome of one `pose_cb` cycle.
* `noTrack`: the `self.waypoints is None` guard fired (lines 111-113).  The
  guard calls `rospy.error(...)`, a function that does not exist in the
  `rospy` API (the logging functions are `rospy.logerr` etc.), so the
  handler raises `AttributeError` there; on either reading of that line the
  cycle ends before anything is published and before any state change.
* `indexError`: `IndexError` escaped from `set_velocity_leading_to_stop_point`,
  so the cycle ends after line 137: nothing is published and
  `self.current_traffic_light` is *not* reset.
* `published window`: the cycle ran to the end and published `window` on
  `final_waypoints` (lines 141-144). -/
inductive CycleOutcome where
  | noTrack
  | indexError
  | published (window : List Waypoint)

/-- The stop/no-stop decision of lines 134-135:
`self.current_traffic_light is not None and (state == 0 or state == 1)`
(RED or YELLOW). -/
def decelFlag (tl : Option TrafficLight) : Bool :=
  match tl with
  | some tl => tl.state == 0 || tl.state == 1
  | none => false

/-- `pose_cb` (lines 110-144).  The two track indices produced by the
external kd-tree helpers (`helper.next_waypoint_index_kdtree` for the pose,
and the stop-line lookup of lines 117-129) are taken as inputs
`closest_wp_idx` and `stop_line_waypoint_idx`; the side-channel publication
of `stop_line_waypoint_idx` (line 131) carries no state and is not
modelled.  If the stored traffic light is RED (0) or YELLOW (1) the
deceleration profile is applied to the shared waypoint store, otherwise the
canonical track is used as is; then the window
`new_waypoints[closest_wp_idx : closest_wp_idx + LOOKAHEAD_WPS]` is
published, after `self.current_traffic_light = None`. -/
noncomputable def pose_cb (s : UpdaterState) (closest_wp_idx stop_line_waypoint_idx : ℕ) :
    CycleOutcome × UpdaterState :=
  match s.waypoints with
  | none => (.noTrack, s)
  | some wps =>
    match (if decelFlag s.current_traffic_light then
             set_velocity_leading_to_stop_point wps s.current_velocity
               closest_wp_idx stop_line_waypoint_idx
           else .ok wps) with
    | .indexError store => (.indexError, { s with waypoints := some store })
    | .ok new_waypoints =>
      (.published ((new_waypoints.drop closest_wp_idx).take LOOKAHEAD_WPS),
       { s with waypoints := some new_waypoints, current_traffic_light := none })

/-! ### Concrete inputs used by the closed theorems and witnesses -/

/-- A waypoint on the x-axis at abscissa `x` with target speed `v`. -/
noncomputable def wpx (x v : ℝ) : Waypoint := { pos := { x := x, y := 0, z := 0 }, vel := v }

/-- Four waypoints on the x-axis at `0, 2, 3, 4`, all at target speed 10:
consecutive segment lengths `2, 1, 1`. -/
noncomputable def T1 : List Waypoint := [wpx 0 10, wpx 2 10, wpx 3 10, wpx 4 10]

/-- The waypoint store after `set_velocity_leading_to_stop_point T1 10 0 2`:
the loop writes `distribution[2] = 10/3` at index 1 (segment length 2) and
`distribution[1] = 20/3` at index 2 (segment length 1). -/
noncomputable def T1res : List Waypoint := [wpx 0 10, wpx 2 (10 / 3), wpx 3 (20 / 3), wpx 4 10]

/-- Three waypoints on the x-axis at `0, 1/4, 1/2`, all at speed 10: the
cumulative distance ahead of the vehicle truncates to 0. -/
noncomputable def T3 : List Waypoint := [wpx 0 10, wpx (1 / 4) 10, wpx (1 / 2) 10]

/-- The identity reference list of the loaded four-waypoint track. -/
def track4 : List ℕ := [0, 1, 2, 3]

/-- A state that has not yet received `base_waypoints`. -/
def S6 : UpdaterState :=
  { waypoints := none, current_velocity := 0, current_traffic_light := none }

/-- A RED `TrafficLight` message. -/
def TL0 : TrafficLight := { state := 0 }

/-- State for the signal-consumption witness: track loaded, RED light stored. -/
noncomputable def S8 : UpdaterState :=
  { waypoints := some T1, current_velocity := 10, current_traffic_light := some TL0 }

/-- The state after the witness DECELERATE cycle: same track content (the
cycle writes nothing because the stop index is behind the vehicle), light
consumed. -/
noncomputable def S8' : UpdaterState :=
  { waypoints := some T1, current_velocity := 10, current_traffic_light := none }

/-- The window published by the witness cycles from `S8`. -/
noncomputable def W8 : List Waypoint := (T1.drop 1).take LOOKAHEAD_WPS

/-- State for the window-length witness: track loaded, no light stored. -/
noncomputable def S9 : UpdaterState :=
  { waypoints := some T1, current_velocity := 10, current_traffic_light := none }

/-- The window published by the witness CRUISE cycle from `S9`. -/
noncomputable def W9 : List Waypoint := (T1.drop 1).take LOOKAHEAD_WPS

/-- State for the aborted-DECELERATE-cycle counterexample: the degenerate
track `T3` loaded, RED light stored. -/
noncomputable def S8x : UpdaterState :=
  { waypoints := some T3, current_velocity := 10, current_traffic_light := some TL0 }

/-- The speed of the waypoint at index `i` in the store carried by a profile
result (used to read speeds off a finished or aborted profile run). -/
noncomputable def velAfter (r : ProfileResult) (i : ℕ) : ℝ :=
  match r with
  | .indexError store => (store.getD i default).vel
  | .ok store => (store.getD i default).vel

/-! ### The shape of the low-speed two-phase profile -/

/-- The two-phase shape actually built by lines 87-95 for a slow vehicle,
expressed sample-wise on a profile list `L`: `2 * total` samples in all; the
first `total` samples are the rising linear ramp from `v` to
`VEL_THRESHOLD`, the next `total` samples are the falling linear ramp from
`VEL_THRESHOLD` to `0`; the profile starts at `v`, ends at `0`, rises
monotonically over the first phase and falls monotonically over the second
phase. -/
def twoPhaseFullSpan (v : ℝ) (total : ℕ) (L : List ℝ) : Prop :=
  L.length = 2 * total ∧
  (∀ i, i < total → L.getD i 0 = v + (VEL_THRESHOLD - v) * i / ((total : ℝ) - 1)) ∧
  (∀ i, i < total →
    L.getD (total + i) 0 = VEL_THRESHOLD + (0 - VEL_THRESHOLD) * i / ((total : ℝ) - 1)) ∧
  L.getD 0 0 = v ∧
  L.getD (2 * total - 1) 0 = 0 ∧
  (∀ i, i + 1 < total → L.getD i 0 ≤ L.getD (i + 1) 0) ∧
  (∀ i, total ≤ i → i + 1 < 2 * total → L.getD (i + 1) 0 ≤ L.getD i 0)

/-- What claim C4 would require instead: a profile whose two phases each span
half of the truncated integer arc length.  Modelled from the spec wording
([section] 4.3: two phases, each over half the distance); compared against the
`distribution` the source builds. -/
noncomputable def distribution_half_phases (current_velocity : ℝ) (total : ℕ) : List ℝ :=
  linspace current_velocity VEL_THRESHOLD (total / 2) ++ linspace VEL_THRESHOLD 0 (total / 2)

/-! ### Basic lemmas about the embedded primitives -/

lemma pythonRange_get? (a b j : ℕ) (h : j < b - a) :
    (pythonRange a b).get? j = some (a + j) := by
  unfold pythonRange
  rw [List.get?_map, List.get?_range h]
  rfl

lemma pythonRange_empty (a b : ℕ) (h : b ≤ a) : pythonRange a b = [] := by
  unfold pythonRange
  rw [Nat.sub_eq_zero_of_le h]
  rfl

lemma range_map_add_succ (a m : ℕ) :
    (List.range (m + 1)).map (fun j => a + j)
      = a :: (List.range m).map (fun j => a + 1 + j) := by
  rw [List.range_succ_eq_map, List.map_cons, List.map_map]
  refine congrArg₂ _ (by omega) (List.map_congr_left (fun j _ => ?_))
  simp only [Function.comp_apply, Nat.succ_eq_add_one]
  omega

lemma linspace_length (a b : ℝ) (n : ℕ) : (linspace a b n).length = n := by
  unfold linspace
  split <;> simp

lemma linspace_get? (a b : ℝ) (n i : ℕ) (hn : 2 ≤ n) (hi : i < n) :
    (linspace a b n).get? i = some (a + (b - a) * i / ((n : ℝ) - 1)) := by
  unfold linspace
  rw [if_neg (by omega), List.get?_map, List.get?_range hi]
  rfl

lemma distances_get? (w : List Waypoint) (start stop j : ℕ) (h : j < stop + 1 - start) :
    (distances w start stop).get? j = some (distance w (start + j) (start + j + 1)) := by
  unfold distances
  rw [List.get?_map, pythonRange_get? start (stop + 1) j h]
  rfl

lemma dl_self (p : Position) : dl p p = 0 := by
  simp [dl]

lemma dl_xaxis (x₁ x₂ : ℝ) (h : x₁ ≤ x₂) :
    dl { x := x₁, y := 0, z := 0 } { x := x₂, y := 0, z := 0 } = x₂ - x₁ := by
  unfold dl
  rw [show (x₁ - x₂) ^ 2 + ((0 : ℝ) - 0) ^ 2 + ((0 : ℝ) - 0) ^ 2 = (x₂ - x₁) ^ 2 by ring]
  exact Real.sqrt_sq (by linarith)

lemma distanceAux_range (w : List Waypoint) :
    ∀ (n t : ℕ) (acc : ℝ),
      distanceAux w ((List.range n).map (fun j => t + 1 + j)) acc t
        = acc + ∑ u ∈ Finset.range n, dl (posD w (t + u)) (posD w (t + u + 1)) := by
  intro n
  induction n with
  | zero => intro t acc; simp [distanceAux]
  | succ m ih =>
    intro t acc
    rw [range_map_add_succ (t + 1) m]
    show distanceAux w _ (acc + dl (posD w t) (posD w (t + 1))) (t + 1) = _
    rw [ih (t + 1) (acc + dl (posD w t) (posD w (t + 1)))]
    rw [Finset.sum_range_succ' (fun u => dl (posD w (t + u)) (posD w (t + u + 1))) m]
    have hidx : ∀ u : ℕ, t + 1 + u = t + (u + 1) := fun u => by omega
    simp only [hidx, Nat.add_zero]
    ring

lemma distance_eq_sum (w : List Waypoint) (a b : ℕ) (hab : a ≤ b) :
    distance w a b = ∑ u ∈ Finset.range (b - a), dl (posD w (a + u)) (posD w (a + u + 1)) := by
  unfold distance
  unfold pythonRange
  rw [show b + 1 - a = (b - a) + 1 by omega, range_map_add_succ a (b - a)]
  show distanceAux w _ (0 + dl (posD w a) (posD w a)) a = _
  rw [dl_self, add_zero, distanceAux_range w (b - a) a 0, zero_add]

lemma distance_self (w : List Waypoint) (a : ℕ) : distance w a a = 0 := by
  rw [distance_eq_sum w a a le_rfl]
  simp

lemma distance_Ico (w : List Waypoint) (a b : ℕ) (hab : a ≤ b) :
    distance w a b = ∑ u ∈ Finset.Ico a b, dl (posD w u) (posD w (u + 1)) := by
  rw [distance_eq_sum w a b hab, Finset.sum_Ico_eq_sum_range]

/-! ### Lemmas about the velocity-assignment loop -/

lemma set_waypoint_velocity_length (ws : List Waypoint) (i : ℕ) (v : ℝ) :
    (set_waypoint_velocity ws i v).length = ws.length := by
  unfold set_waypoint_velocity
  cases h : ws.get? i <;> simp

lemma set_waypoint_velocity_get?_ne (ws : List Waypoint) (i j : ℕ) (v : ℝ) (hij : i ≠ j) :
    (set_waypoint_velocity ws i v).get? j = ws.get? j := by
  unfold set_waypoint_velocity
  cases h : ws.get? i
  · rfl
  · exact List.get?_set_ne _ _ hij

lemma set_waypoint_velocity_get?_eq (ws : List Waypoint) (i : ℕ) (v : ℝ)
    (h : i < ws.length) :
    ∃ wp, ws.get? i = some wp ∧
      (set_waypoint_velocity ws i v).get? i = some { pos := wp.pos, vel := v } := by
  have hwp : ws.get? i = some (ws.get ⟨i, h⟩) := List.get?_eq_get h
  refine ⟨ws.get ⟨i, h⟩, hwp, ?_⟩
  unfold set_waypoint_velocity
  rw [hwp]
  exact List.get?_set_eq_of_lt _ h

lemma setVelLoop_ok_length (dsts distr : List ℝ) :
    ∀ (l : List ℕ) (k : ℕ) (store r : List Waypoint),
      setVelLoop dsts distr l k store = .ok r → r.length = store.length := by
  intro l
  induction l with
  | nil =>
    intro k store r h
    cases h
    rfl
  | cons i rest ih =>
    intro k store r h
    unfold setVelLoop at h
    cases hd : dsts.get? k with
    | none => simp only [hd] at h; exact ProfileResult.noConfusion h
    | some d =>
      simp only [hd] at h
      cases hv : distr.get? ((⌊d⌋).toNat) with
      | none => simp only [hv] at h; exact ProfileResult.noConfusion h
      | some v =>
        simp only [hv] at h
        exact (ih (k + 1) _ r h).trans (set_waypoint_velocity_length store i v)

/-- Functional characterization of the assignment loop of lines 100-106, for
loops over the contiguous index block `a, a+1, …, a+m-1`: when every ramp
lookup is in range, the loop succeeds, preserves the store length, leaves
indices below `a` untouched, and writes at `a + j` the ramp sample whose
index is the truncated `j`-th entry of `distances` (offset by the starting
`dist_idx` value `k`). -/
lemma setVelLoop_spec (dsts distr : List ℝ) :
    ∀ (m a k : ℕ) (store : List Waypoint),
      (∀ j, j < m → ∃ x, dsts.get? (k + j) = some x ∧ (⌊x⌋).toNat < distr.length) →
      ∃ r, setVelLoop dsts distr ((List.range m).map (fun j => a + j)) k store = .ok r ∧
        r.length = store.length ∧
        (∀ i, i < a → r.get? i = store.get? i) ∧
        (∀ j, j < m → a + j < store.length →
          ∃ x, dsts.get? (k + j) = some x ∧
            (r.getD (a + j) default).vel = distr.getD ((⌊x⌋).toNat) 0) := by
  intro m
  induction m with
  | zero =>
    intro a k store _
    exact ⟨store, rfl, rfl, fun i _ => rfl, fun j hj => absurd hj (by omega)⟩
  | succ m ih =>
    intro a k store h
    obtain ⟨x, hx, hxlen⟩ := h 0 (by omega)
    rw [Nat.add_zero] at hx
    obtain ⟨y, hy⟩ : ∃ y, distr.get? ((⌊x⌋).toNat) = some y := ⟨_, List.get?_eq_get hxlen⟩
    set store₁ := set_waypoint_velocity store a y with hstore₁
    obtain ⟨r, hr, hrlen, hlow, hval⟩ :=
      ih (a + 1) (k + 1) store₁ (fun j hj => by
        obtain ⟨x', hx', hl'⟩ := h (j + 1) (by omega)
        exact ⟨x', by rw [show k + 1 + j = k + (j + 1) by omega]; exact hx', hl'⟩)
    refine ⟨r, ?_, ?_, ?_, ?_⟩
    · rw [range_map_add_succ a m]
      unfold setVelLoop
      simp only [hx, hy]
      exact hr
    · rw [hrlen, hstore₁, set_waypoint_velocity_length]
    · intro i hi
      rw [hlow i (by omega), hstore₁, set_waypoint_velocity_get?_ne store a i y (by omega)]
    · intro j hj hbound
      match j with
      | 0 =>
        refine ⟨x, by rw [Nat.add_zero]; exact hx, ?_⟩
        have h1 : r.get? (a + 0) = store₁.get? (a + 0) := hlow (a + 0) (by omega)
        rw [Nat.add_zero] at h1 hbound
        obtain ⟨wp, _, hset⟩ := set_waypoint_velocity_get?_eq store a y hbound
        rw [Nat.add_zero, List.getD_eq_get?, h1, hstore₁, hset]
        rw [List.getD_eq_get?, hy]
        rfl
      | j' + 1 =>
        obtain ⟨x', hx', hvel⟩ := hval j' (by omega) (by
          rw [hstore₁, set_waypoint_velocity_length]; omega)
        refine ⟨x', ?_, ?_⟩
        · rw [show k + (j' + 1) = k + 1 + j' by omega]
          exact hx'
        · rw [show a + (j' + 1) = a + 1 + j' by omega]
          exact hvel

/-- When the stop index is strictly behind the vehicle index, both Python
ranges of `set_velocity_leading_to_stop_point` are empty: the call returns
the untouched store. -/
lemma set_velocity_behind (w : List Waypoint) (v : ℝ) (c st : ℕ) (h : st < c) :
    set_velocity_leading_to_stop_point w v c st = .ok w := by
  unfold set_velocity_leading_to_stop_point
  rw [pythonRange_empty (c + 1) (st + 1) (by omega)]
  rfl

/-! ### Concrete evaluations on the example tracks -/

lemma dl_eval (a b : Position) (r : ℝ) (hr : 0 ≤ r)
    (h : (a.x - b.x) ^ 2 + (a.y - b.y) ^ 2 + (a.z - b.z) ^ 2 = r ^ 2) :
    dl a b = r := by
  unfold dl
  rw [h]
  exact Real.sqrt_sq hr

lemma T1_d01 : distance T1 0 1 = 2 := by
  rw [distance_eq_sum T1 0 1 (by omega)]
  norm_num [Finset.sum_range_succ]
  exact dl_eval _ _ 2 (by norm_num) (by norm_num [posD, T1, wpx])

lemma T1_d12 : distance T1 1 2 = 1 := by
  rw [distance_eq_sum T1 1 2 (by omega)]
  norm_num [Finset.sum_range_succ]
  exact dl_eval _ _ 1 (by norm_num) (by norm_num [posD, T1, wpx])

lemma T1_d23 : distance T1 2 3 = 1 := by
  rw [distance_eq_sum T1 2 3 (by omega)]
  norm_num [Finset.sum_range_succ]
  exact dl_eval _ _ 1 (by norm_num) (by norm_num [posD, T1, wpx])

lemma T1_d02 : distance T1 0 2 = 3 := by
  rw [distance_eq_sum T1 0 2 (by omega)]
  norm_num [Finset.sum_range_succ]
  rw [dl_eval (posD T1 0) (posD T1 1) 2 (by norm_num) (by norm_num [posD, T1, wpx]),
    dl_eval (posD T1 1) (posD T1 2) 1 (by norm_num) (by norm_num [posD, T1, wpx])]
  norm_num

lemma T1_distances : distances T1 0 2 = [2, 1, 1] := by
  unfold distances
  rw [show pythonRange 0 3 = [0, 1, 2] from rfl]
  show [distance T1 0 (0 + 1), distance T1 1 (1 + 1), distance T1 2 (2 + 1)] = [2, 1, 1]
  norm_num [T1_d01, T1_d12, T1_d23]

lemma T1_total : total_distance T1 0 2 = 4 := by
  unfold total_distance
  rw [T1_distances]
  norm_num [List.sum_cons, List.sum_nil]
  rfl

lemma distr104_get1 : (distribution 10 4).get? 1 = some (20 / 3) := by
  unfold distribution
  rw [if_neg (by norm_num [VEL_THRESHOLD])]
  rw [linspace_get? 10 0 4 1 (by omega) (by omega)]
  norm_num

lemma distr104_get2 : (distribution 10 4).get? 2 = some (10 / 3) := by
  unfold distribution
  rw [if_neg (by norm_num [VEL_THRESHOLD])]
  rw [linspace_get? 10 0 4 2 (by omega) (by omega)]
  norm_num

lemma distr104_getD3 : (distribution 10 4).getD 3 0 = 0 := by
  unfold distribution
  rw [if_neg (by norm_num [VEL_THRESHOLD])]
  rw [List.getD_eq_get?, linspace_get? 10 0 4 3 (by omega) (by omega)]
  norm_num

lemma swv_T1_1 : set_waypoint_velocity T1 1 (10 / 3) =
    [wpx 0 10, wpx 2 (10 / 3), wpx 3 10, wpx 4 10] := by
  unfold set_waypoint_velocity
  rw [show T1.get? 1 = some (wpx 2 10) from rfl]
  show T1.set 1 { wpx 2 10 with vel := 10 / 3 } = _
  unfold T1 wpx
  rfl

lemma swv_T1_2 : set_waypoint_velocity [wpx 0 10, wpx 2 (10 / 3), wpx 3 10, wpx 4 10] 2 (20 / 3)
    = T1res := by
  unfold set_waypoint_velocity
  rw [show ([wpx 0 10, wpx 2 (10 / 3), wpx 3 10, wpx 4 10] : List Waypoint).get? 2
    = some (wpx 3 10) from rfl]
  unfold T1res wpx
  rfl

/-- Full run of the DECELERATE profile on `T1` from vehicle index 0 to stop
index 2 at current speed 10: both intermediate waypoints are assigned from
the ramp sample indexed by their single preceding segment length. -/
lemma set_vel_T1_eval : set_velocity_leading_to_stop_point T1 10 0 2 = .ok T1res := by
  unfold set_velocity_leading_to_stop_point
  rw [T1_total, T1_distances]
  rw [show pythonRange 1 3 = [1, 2] from rfl]
  unfold setVelLoop
  simp only [List.get?_cons_zero, show ((⌊(2 : ℝ)⌋).toNat) = 2 by norm_num; rfl, distr104_get2,
    swv_T1_1]
  unfold setVelLoop
  simp only [List.get?_cons_succ, List.get?_cons_zero,
    show ((⌊(1 : ℝ)⌋).toNat) = 1 by norm_num, distr104_get1, swv_T1_2]
  rfl

lemma T3_d01 : distance T3 0 1 = 1 / 4 := by
  rw [distance_eq_sum T3 0 1 (by omega)]
  norm_num [Finset.sum_range_succ]
  exact dl_eval _ _ (1 / 4) (by norm_num) (by norm_num [posD, T3, wpx])

lemma T3_d12 : distance T3 1 2 = 1 / 4 := by
  rw [distance_eq_sum T3 1 2 (by omega)]
  norm_num [Finset.sum_range_succ]
  exact dl_eval _ _ (1 / 4) (by norm_num) (by norm_num [posD, T3, wpx])

lemma T3_distances : distances T3 0 1 = [1 / 4, 1 / 4] := by
  unfold distances
  rw [show pythonRange 0 2 = [0, 1] from rfl]
  show [distance T3 0 (0 + 1), distance T3 1 (1 + 1)] = [1 / 4, 1 / 4]
  norm_num [T3_d01, T3_d12]

lemma T3_total : total_distance T3 0 1 = 0 := by
  unfold total_distance
  rw [T3_distances]
  norm_num [List.sum_cons, List.sum_nil]

lemma distr_10_0 : distribution 10 0 = [] := by
  unfold distribution
  rw [if_neg (by norm_num [VEL_THRESHOLD])]
  unfold linspace
  rw [if_pos (by omega)]
  rfl

/-- Full run on `T3` from vehicle index 0 to stop index 1 at speed 10: the
cumulative distance truncates to 0, the ramp is empty, and the very first
ramp lookup raises `IndexError` before any write. -/
lemma set_vel_T3_eval : set_velocity_leading_to_stop_point T3 10 0 1 = .indexError T3 := by
  unfold set_velocity_leading_to_stop_point
  rw [T3_total, T3_distances]
  rw [show pythonRange 1 2 = [1] from rfl]
  unfold setVelLoop
  simp only [List.get?_cons_zero, show ((⌊(1 / 4 : ℝ)⌋).toNat) = 0 by norm_num, distr_10_0,
    List.get?_nil]

lemma deref_T1 : deref T1 track4 = T1 := rfl

lemma canonical_vels_T1 : canonical_vels T1 track4 = [10, 10, 10, 10] := rfl

lemma canonical_vels_T1res : canonical_vels T1res track4 = [10, 10 / 3, 20 / 3, 10] := rfl

/-- Full run of the object-identity model on the loaded track `T1` with the
identity reference list: the two velocity writes land on the shared store. -/
lemma set_vel_refs_eval :
    set_velocity_leading_to_stop_point_refs T1 track4 10 0 2 = .ok T1res := by
  unfold set_velocity_leading_to_stop_point_refs shallow_copy
  show setVelLoopRefs (distances (deref T1 track4) 0 2)
    (distribution 10 (total_distance (deref T1 track4) 0 2)) track4
    (pythonRange (0 + 1) (2 + 1)) 0 T1 = ProfileResult.ok T1res
  rw [deref_T1, T1_total, T1_distances]
  rw [show pythonRange 1 3 = [1, 2] from rfl]
  unfold setVelLoopRefs
  simp only [List.get?_cons_zero, show ((⌊(2 : ℝ)⌋).toNat) = 2 by norm_num; rfl, distr104_get2,
    show track4.getD 1 0 = 1 from rfl, swv_T1_1]
  unfold setVelLoopRefs
  simp only [List.get?_cons_succ, List.get?_cons_zero,
    show ((⌊(1 : ℝ)⌋).toNat) = 1 by norm_num, distr104_get1,
    show track4.getD 2 0 = 2 from rfl, swv_T1_2]
  rfl

/-! ### Lemmas about the pose callback -/

lemma set_velocity_ok_length (w nw : List Waypoint) (v : ℝ) (c st : ℕ)
    (h : set_velocity_leading_to_stop_point w v c st = .ok nw) : nw.length = w.length := by
  unfold set_velocity_leading_to_stop_point at h
  exact setVelLoop_ok_length _ _ _ _ _ _ h

lemma pose_cb_none (s : UpdaterState) (c st : ℕ) (h : s.waypoints = none) :
    pose_cb s c st = (.noTrack, s) := by
  unfold pose_cb
  rw [h]

lemma pose_cb_cruise (wps : List Waypoint) (v : ℝ) (c st : ℕ) :
    pose_cb { waypoints := some wps, current_velocity := v, current_traffic_light := none } c st
      = (.published ((wps.drop c).take LOOKAHEAD_WPS),
         { waypoints := some wps, current_velocity := v, current_traffic_light := none }) := rfl

lemma decelFlag_red_yellow (tl : TrafficLight) (hsig : tl.state = 0 ∨ tl.state = 1) :
    decelFlag (some tl) = true := by
  unfold decelFlag
  rcases hsig with h | h <;> simp [h]

lemma pose_cb_decel_ok (wps nw : List Waypoint) (v : ℝ) (tl : TrafficLight) (c st : ℕ)
    (hsig : tl.state = 0 ∨ tl.state = 1)
    (hok : set_velocity_leading_to_stop_point wps v c st = .ok nw) :
    pose_cb { waypoints := some wps, current_velocity := v,
              current_traffic_light := some tl } c st
      = (.published ((nw.drop c).take LOOKAHEAD_WPS),
         { waypoints := some nw, current_velocity := v, current_traffic_light := none }) := by
  simp only [pose_cb, decelFlag_red_yellow tl hsig, if_true, hok]

lemma pose_cb_published_inv (s : UpdaterState) (c st : ℕ) (win : List Waypoint)
    (s' : UpdaterState) (h : pose_cb s c st = (.published win, s')) :
    ∃ wps nw, s.waypoints = some wps ∧ nw.length = wps.length ∧
      win = (nw.drop c).take LOOKAHEAD_WPS ∧
      s' = { waypoints := some nw, current_velocity := s.current_velocity,
             current_traffic_light := none } := by
  unfold pose_cb at h
  cases hw : s.waypoints with
  | none =>
    simp only [hw] at h
    simp [Prod.ext_iff] at h
  | some wps =>
    simp only [hw] at h
    refine ⟨wps, ?_⟩
    rcases Bool.eq_false_or_eq_true (decelFlag s.current_traffic_light) with hb | hb
    · rw [hb] at h
      simp only [eq_self_iff_true, if_true] at h
      cases hres : set_velocity_leading_to_stop_point wps s.current_velocity c st with
      | indexError store =>
        simp only [hres] at h
        simp only [Prod.mk.injEq] at h
        exact absurd h.1 (by simp)
      | ok nw =>
        simp only [hres] at h
        simp only [Prod.mk.injEq, CycleOutcome.published.injEq] at h
        exact ⟨nw, rfl, set_velocity_ok_length wps nw s.current_velocity c st hres,
          h.1.symm, h.2.symm⟩
    · rw [hb] at h
      simp only [Bool.false_eq_true, if_false] at h
      simp only [Prod.mk.injEq, CycleOutcome.published.injEq] at h
      exact ⟨wps, rfl, rfl, h.1.symm, h.2.symm⟩

lemma linspace_getD (a b : ℝ) (n i : ℕ) (hn : 2 ≤ n) (hi : i < n) :
    (linspace a b n).getD i 0 = a + (b - a) * i / ((n : ℝ) - 1) := by
  rw [List.getD_eq_get?, linspace_get? a b n i hn hi]
  rfl

lemma cast_pred_pos (n : ℕ) (hn : 2 ≤ n) : (0 : ℝ) < (n : ℝ) - 1 := by
  have : (2 : ℝ) ≤ (n : ℝ) := by exact_mod_cast hn
  linarith

lemma distr104_len : (distribution 10 4).length = 4 := by
  unfold distribution
  rw [if_neg (by norm_num [VEL_THRESHOLD])]
  exact linspace_length 10 0 4

/-! ### The claims -/

/-- Claim C10: the distance helper is path-additive: for every waypoint list
`w` and indices `i ≤ j ≤ k` within bounds, `distance w i i = 0` and
`distance w i k = distance w i j + distance w j k`, because it sums
consecutive-segment Euclidean distances. -/
theorem C10_distance_path_additive (w : List Waypoint) (i j k : ℕ)
    (hij : i ≤ j) (hjk : j ≤ k) (hk : k < w.length) :
    distance w i i = 0 ∧ distance w i k = distance w i j + distance w j k := by
  refine ⟨distance_self w i, ?_⟩
  rw [distance_Ico w i k (hij.trans hjk), distance_Ico w i j hij, distance_Ico w j k hjk]
  exact (Finset.sum_Ico_consecutive _ hij hjk).symm

/-- Witness for C10 at `w = T1`, `i = 0`, `j = 1`, `k = 2`. -/
theorem C10_distance_path_additive_app :
    (0 ≤ 1 ∧ 1 ≤ 2 ∧ 2 < T1.length) ∧
    (distance T1 0 0 = 0 ∧ distance T1 0 2 = distance T1 0 1 + distance T1 1 2) :=
  ⟨⟨by omega, by omega, by norm_num [T1]⟩,
    C10_distance_path_additive T1 0 1 2 (by omega) (by omega) (by norm_num [T1])⟩

/-- Claim C6: a pose update that arrives before the track has been loaded
aborts the cycle without emitting a trajectory window and without changing
the state.  (The code reaches this branch (lines 111-113) but its error
report calls `rospy.error`, which does not exist in the `rospy` API - the
function is `rospy.logerr` - so the handler dies with `AttributeError`
instead of logging; see the `CycleOutcome.noTrack` doc comment.) -/
theorem C6_pose_before_track_aborts :
    pose_cb S6 0 0 = (.noTrack, S6) ∧
    ∀ window s2, pose_cb S6 0 0 ≠ (CycleOutcome.published window, s2) := by
  have h : pose_cb S6 0 0 = (.noTrack, S6) := pose_cb_none S6 0 0 rfl
  refine ⟨h, fun window s2 hc => ?_⟩
  rw [h] at hc
  exact CycleOutcome.noConfusion (congrArg Prod.fst hc)

/-- Claim C3: on `T3` the cumulative arc length from index 0 to index 1
truncates to 0, and the code then indexes the empty ramp: the profile run
raises `IndexError` instead of yielding speed 0. -/
theorem C3_empty_ramp_index_error :
    total_distance T3 0 1 = 0 ∧
    set_velocity_leading_to_stop_point T3 10 0 1 = .indexError T3 :=
  ⟨T3_total, set_vel_T3_eval⟩

/-- Claim C1: on `T1` (segments 2, 1, 1; vehicle at 0, stop line at 2,
current speed 10) the generated speeds are *not* monotonically
non-increasing (index 1 gets 10/3, index 2 gets 20/3) and the speed at the
stop-line index is 20/3, not 0. -/
theorem C1_profile_not_monotone_not_zero_at_stop :
    set_velocity_leading_to_stop_point T1 10 0 2 = .ok T1res ∧
    velAfter (set_velocity_leading_to_stop_point T1 10 0 2) 1
      < velAfter (set_velocity_leading_to_stop_point T1 10 0 2) 2 ∧
    velAfter (set_velocity_leading_to_stop_point T1 10 0 2) 2 ≠ 0 := by
  refine ⟨set_vel_T1_eval, ?_, ?_⟩
  · rw [set_vel_T1_eval]
    show (T1res.getD 1 default).vel < (T1res.getD 2 default).vel
    norm_num [T1res, wpx]
  · rw [set_vel_T1_eval]
    show (T1res.getD 2 default).vel ≠ 0
    norm_num [T1res, wpx]

/-- Counterexample to claim C2 as stated: on `T1` the waypoint at index 2 is
assigned ramp sample `distribution[1] = 20/3` (its own preceding segment has
length 1), whereas its cumulative distance from the start is 3 and the ramp
sample at index 3 is 0. -/
theorem C2_cumulative_indexing_counterexample :
    set_velocity_leading_to_stop_point T1 10 0 2 = .ok T1res ∧
    velAfter (set_velocity_leading_to_stop_point T1 10 0 2) 2 = 20 / 3 ∧
    (distribution 10 (total_distance T1 0 2)).getD ((⌊distance T1 0 2⌋).toNat) 0 = 0 ∧
    (20 / 3 : ℝ) ≠ 0 := by
  refine ⟨set_vel_T1_eval, ?_, ?_, by norm_num⟩
  · rw [set_vel_T1_eval]
    show (T1res.getD 2 default).vel = 20 / 3
    norm_num [T1res, wpx]
  · rw [T1_total, T1_d02, show ((⌊(3 : ℝ)⌋).toNat) = 3 by norm_num; rfl]
    exact distr104_getD3

/-- Claim C5: the canonical track is *not* preserved: the shallow copy
`self.waypoints[:]` shares the `Waypoint` objects, so the DECELERATE cycle's
speed writes are visible through the canonical reference list `track4` -
after the call the canonical speeds read `[10, 10/3, 20/3, 10]` instead of
the loaded `[10, 10, 10, 10]`. -/
theorem C5_canonical_track_mutated :
    set_velocity_leading_to_stop_point_refs T1 track4 10 0 2 = .ok T1res ∧
    canonical_vels T1 track4 = [10, 10, 10, 10] ∧
    canonical_vels T1res track4 = [10, 10 / 3, 20 / 3, 10] ∧
    canonical_vels T1res track4 ≠ canonical_vels T1 track4 := by
  refine ⟨set_vel_refs_eval, canonical_vels_T1, canonical_vels_T1res, ?_⟩
  rw [canonical_vels_T1, canonical_vels_T1res]
  intro hc
  simp only [List.cons.injEq] at hc
  exact absurd hc.2.1 (by norm_num)

/-- Claim C7: when the stop-line track index is strictly behind the vehicle
index, a RED/YELLOW cycle writes no speeds: it publishes exactly the
canonical slice and its outcome coincides with the CRUISE cycle. -/
theorem C7_stop_behind_is_cruise (wps : List Waypoint) (v : ℝ) (tl : TrafficLight)
    (c st : ℕ) (hsig : tl.state = 0 ∨ tl.state = 1) (hbehind : st < c) :
    pose_cb { waypoints := some wps, current_velocity := v,
              current_traffic_light := some tl } c st
      = (.published ((wps.drop c).take LOOKAHEAD_WPS),
         { waypoints := some wps, current_velocity := v, current_traffic_light := none })
    ∧ pose_cb { waypoints := some wps, current_velocity := v,
                current_traffic_light := some tl } c st
      = pose_cb { waypoints := some wps, current_velocity := v,
                  current_traffic_light := none } c st := by
  have h1 := pose_cb_decel_ok wps wps v tl c st hsig (set_velocity_behind wps v c st hbehind)
  exact ⟨h1, h1.trans (pose_cb_cruise wps v c st).symm⟩

/-- Witness for C7 at the loaded track `T1`, RED light, vehicle index 1,
stop-line index 0. -/
theorem C7_stop_behind_is_cruise_app :
    ((TL0.state = 0 ∨ TL0.state = 1) ∧ 0 < 1) ∧
    (pose_cb { waypoints := some T1, current_velocity := 10,
               current_traffic_light := some TL0 } 1 0
      = (.published ((T1.drop 1).take LOOKAHEAD_WPS),
         { waypoints := some T1, current_velocity := 10, current_traffic_light := none })
    ∧ pose_cb { waypoints := some T1, current_velocity := 10,
                current_traffic_light := some TL0 } 1 0
      = pose_cb { waypoints := some T1, current_velocity := 10,
                  current_traffic_light := none } 1 0) :=
  ⟨⟨Or.inl rfl, by omega⟩,
    C7_stop_behind_is_cruise T1 10 TL0 1 0 (Or.inl rfl) (by omega)⟩

/-- Counterexample to claim C8 as stated: on the degenerate track `T3` a
RED-triggered DECELERATE cycle aborts with `IndexError` before the reset of
line 143 runs, so the stored RED reading is *not* consumed (the state comes
back unchanged, light still stored), and the subsequent pose update that
receives no new signal reading again takes the DECELERATE branch instead of
falling back to CRUISE (its result differs from the CRUISE cycle's, which
publishes). -/
theorem C8_abort_skips_consumption_counterexample :
    pose_cb S8x 0 1 = (CycleOutcome.indexError, S8x) ∧
    S8x.current_traffic_light = some TL0 ∧ TL0.state = 0 ∧
    pose_cb S8x 0 1
      ≠ pose_cb { waypoints := some T3, current_velocity := 10,
                  current_traffic_light := none } 0 1 := by
  have h : pose_cb S8x 0 1 = (CycleOutcome.indexError, S8x) := by
    show pose_cb { waypoints := some T3, current_velocity := 10,
                   current_traffic_light := some TL0 } 0 1
      = (CycleOutcome.indexError, S8x)
    simp only [pose_cb, decelFlag_red_yellow TL0 (Or.inl rfl), if_true, set_vel_T3_eval]
    rfl
  refine ⟨h, rfl, rfl, ?_⟩
  rw [h, pose_cb_cruise T3 10 0 1]
  intro hc
  exact CycleOutcome.noConfusion (congrArg Prod.fst hc)

/-- Claim C8 (amended): after any RED-triggered DECELERATE cycle that runs
to completion and publishes, `self.current_traffic_light` has been reset to
`None` before the publish, so any subsequent pose update that receives no
new signal reading takes the CRUISE branch: it publishes the plain slice of
the current track content and leaves the state unchanged.  (A DECELERATE
cycle aborted by the `IndexError` of C3 skips the reset and the stale RED
reading re-triggers DECELERATE on the next pose update - see the
counterexample above.) -/
theorem C8_signal_consumed (s : UpdaterState) (tl : TrafficLight) (c st : ℕ)
    (win : List Waypoint) (s' : UpdaterState)
    (hred : s.current_traffic_light = some tl) (hstate : tl.state = 0)
    (h : pose_cb s c st = (.published win, s')) :
    s'.current_traffic_light = none ∧
    ∃ w2, s'.waypoints = some w2 ∧
      ∀ c2 st2, pose_cb s' c2 st2
        = (.published ((w2.drop c2).take LOOKAHEAD_WPS), s') := by
  obtain ⟨wps, nw, hw, hlen, hwin, hs'⟩ := pose_cb_published_inv s c st win s' h
  subst hs'
  exact ⟨rfl, nw, rfl, fun c2 st2 => pose_cb_cruise nw s.current_velocity c2 st2⟩

/-- Witness for C8: a DECELERATE cycle from `S8` (RED light stored), followed
by cycles that received no new signal. -/
theorem C8_signal_consumed_app :
    (S8.current_traffic_light = some TL0 ∧ TL0.state = 0 ∧
      pose_cb S8 1 0 = (.published W8, S8')) ∧
    (S8'.current_traffic_light = none ∧
      ∃ w2, S8'.waypoints = some w2 ∧
        ∀ c2 st2, pose_cb S8' c2 st2
          = (.published ((w2.drop c2).take LOOKAHEAD_WPS), S8')) := by
  have h8 : pose_cb S8 1 0 = (.published W8, S8') :=
    pose_cb_decel_ok T1 T1 10 TL0 1 0 (Or.inl rfl) (set_velocity_behind T1 10 1 0 (by omega))
  exact ⟨⟨rfl, rfl, h8⟩, C8_signal_consumed S8 TL0 1 0 W8 S8' rfl rfl h8⟩

/-- Claim C9: every published trajectory window has length
`min LOOKAHEAD_WPS (track_length - vehicle_index)`, and in particular never
exceeds `LOOKAHEAD_WPS = 200`. -/
theorem C9_window_length (s : UpdaterState) (wps : List Waypoint) (c st : ℕ)
    (win : List Waypoint) (s' : UpdaterState)
    (hw : s.waypoints = some wps)
    (h : pose_cb s c st = (.published win, s')) :
    win.length = min LOOKAHEAD_WPS (wps.length - c) ∧ win.length ≤ LOOKAHEAD_WPS := by
  obtain ⟨wps2, nw, hw2, hlen, hwin, _⟩ := pose_cb_published_inv s c st win s' h
  rw [hw] at hw2
  injection hw2 with hw2
  subst hw2
  rw [hwin, List.length_take, List.length_drop, hlen]
  exact ⟨rfl, min_le_left _ _⟩

/-- Witness for C9: a CRUISE cycle from `S9` on the four-waypoint track `T1`
with vehicle index 1 publishes `min 200 (4 - 1) = 3` waypoints. -/
theorem C9_window_length_app :
    (S9.waypoints = some T1 ∧ pose_cb S9 1 0 = (.published W9, S9)) ∧
    (W9.length = min LOOKAHEAD_WPS (T1.length - 1) ∧ W9.length ≤ LOOKAHEAD_WPS) := by
  have h9 : pose_cb S9 1 0 = (.published W9, S9) := pose_cb_cruise T1 10 1 0
  exact ⟨⟨rfl, h9⟩, C9_window_length S9 T1 1 0 W9 S9 rfl h9⟩

/-- Claim C2 (amended): when every ramp lookup is in range, the loop
succeeds, and every intermediate waypoint `start + 1 + j` of
`(start, stop]` is assigned the ramp sample whose index is the truncated
length of the *single track segment directly preceding it*
(`distances[j] = distance(w, start + j, start + j + 1)`), not its cumulative
distance from the start; waypoints up to and including `start` are
untouched. -/
theorem C2_segment_distance_indexing (w : List Waypoint) (v : ℝ) (start stop : ℕ)
    (hidx : ∀ j, j < stop - start →
      ((⌊distance w (start + j) (start + j + 1)⌋).toNat)
        < (distribution v (total_distance w start stop)).length) :
    ∃ r, set_velocity_leading_to_stop_point w v start stop = .ok r ∧
      r.length = w.length ∧
      (∀ i, i < start + 1 → r.get? i = w.get? i) ∧
      (∀ j, j < stop - start → start + 1 + j < w.length →
        (r.getD (start + 1 + j) default).vel
          = (distribution v (total_distance w start stop)).getD
              ((⌊distance w (start + j) (start + j + 1)⌋).toNat) 0) := by
  obtain ⟨r, hr, hrlen, hlow, hval⟩ :=
    setVelLoop_spec (distances w start stop)
      (distribution v (total_distance w start stop)) (stop - start) (start + 1) 0 w
      (fun j hj =>
        ⟨distance w (start + j) (start + j + 1),
          by rw [Nat.zero_add]; exact distances_get? w start stop j (by omega), hidx j hj⟩)
  refine ⟨r, ?_, hrlen, hlow, ?_⟩
  · unfold set_velocity_leading_to_stop_point
    unfold pythonRange
    rw [show stop + 1 - (start + 1) = stop - start by omega]
    exact hr
  · intro j hj hb
    obtain ⟨x, hx, hvel⟩ := hval j hj hb
    rw [Nat.zero_add] at hx
    rw [distances_get? w start stop j (by omega)] at hx
    injection hx with hx
    rw [hvel, hx]

/-- Witness for C2 (amended) on `T1` from vehicle index 0 to stop index 2 at
speed 10: both ramp lookups (segment lengths 2 and 1, ramp length 4) are in
range. -/
theorem C2_segment_distance_indexing_app :
    (∀ j, j < 2 - 0 →
      ((⌊distance T1 (0 + j) (0 + j + 1)⌋).toNat)
        < (distribution 10 (total_distance T1 0 2)).length) ∧
    (∃ r, set_velocity_leading_to_stop_point T1 10 0 2 = .ok r ∧
      r.length = T1.length ∧
      (∀ i, i < 0 + 1 → r.get? i = T1.get? i) ∧
      (∀ j, j < 2 - 0 → 0 + 1 + j < T1.length →
        (r.getD (0 + 1 + j) default).vel
          = (distribution 10 (total_distance T1 0 2)).getD
              ((⌊distance T1 (0 + j) (0 + j + 1)⌋).toNat) 0)) := by
  have hidx : ∀ j, j < 2 - 0 →
      ((⌊distance T1 (0 + j) (0 + j + 1)⌋).toNat)
        < (distribution 10 (total_distance T1 0 2)).length := by
    intro j hj
    rw [T1_total, distr104_len]
    interval_cases j
    · rw [show (0 + 0 : ℕ) = 0 by omega, show (0 + 0 + 1 : ℕ) = 1 by omega, T1_d01]
      norm_num
    · rw [show (0 + 1 : ℕ) = 1 by omega, show (0 + 1 + 1 : ℕ) = 2 by omega, T1_d12]
      norm_num
  exact ⟨hidx, C2_segment_distance_indexing T1 10 0 2 hidx⟩

/-- Counterexample to claim C4 as stated: with `current_speed = 3` and
truncated arc length `total = 2`, the profile the code builds has 4 samples
(each phase spans the *full* arc length), while two phases each spanning
half of the arc length would give 2 samples; the two profiles differ. -/
theorem C4_half_phases_counterexample :
    (distribution 3 2).length = 4 ∧ (distribution_half_phases 3 2).length = 2 ∧
    distribution 3 2 ≠ distribution_half_phases 3 2 := by
  have h1 : (distribution 3 2).length = 4 := by
    unfold distribution
    rw [if_pos (by norm_num [VEL_THRESHOLD])]
    simp [linspace_length]
  have h2 : (distribution_half_phases 3 2).length = 2 := by
    unfold distribution_half_phases
    simp [linspace_length]
  refine ⟨h1, h2, fun hc => ?_⟩
  rw [hc, h2] at h1
  exact absurd h1 (by norm_num)

/-- Claim C4 (amended): for `current_speed` below the threshold and a
truncated arc length of at least 2, the profile is the two-phase curve
rising linearly from `current_speed` to the threshold and then falling
linearly from the threshold to 0 - but each phase spans the *full* truncated
integer arc length (`total` samples per phase, `2 * total` in all), not half
of it. -/
theorem C4_two_phase_full_span (v : ℝ) (total : ℕ)
    (hv : v < VEL_THRESHOLD) (ht : 2 ≤ total) :
    twoPhaseFullSpan v total (distribution v total) := by
  have hd : distribution v total
      = linspace v VEL_THRESHOLD total ++ linspace VEL_THRESHOLD 0 total := by
    unfold distribution
    rw [if_pos hv]
  have hlenL : (linspace v VEL_THRESHOLD total).length = total := linspace_length _ _ _
  have hdpos : (0 : ℝ) < (total : ℝ) - 1 := cast_pred_pos total ht
  have hrise : ∀ i, i < total → (distribution v total).getD i 0
      = v + (VEL_THRESHOLD - v) * i / ((total : ℝ) - 1) := by
    intro i hi
    rw [hd, List.getD_eq_get?, List.get?_append (by rw [hlenL]; exact hi),
      linspace_get? v VEL_THRESHOLD total i ht hi]
    rfl
  have hfall : ∀ i, i < total → (distribution v total).getD (total + i) 0
      = VEL_THRESHOLD + (0 - VEL_THRESHOLD) * i / ((total : ℝ) - 1) := by
    intro i hi
    rw [hd, List.getD_eq_get?, List.get?_append_right (by rw [hlenL]; omega), hlenL,
      show total + i - total = i by omega,
      linspace_get? VEL_THRESHOLD 0 total i ht hi]
    rfl
  refine ⟨?_, hrise, hfall, ?_, ?_, ?_, ?_⟩
  · rw [hd, List.length_append, hlenL, linspace_length]
    omega
  · rw [hrise 0 (by omega)]
    norm_num
  · rw [show 2 * total - 1 = total + (total - 1) by omega, hfall (total - 1) (by omega)]
    rw [Nat.cast_sub (by omega), Nat.cast_one, mul_div_assoc,
      div_self (ne_of_gt hdpos), mul_one]
    ring
  · intro i hi
    rw [hrise i (by omega), hrise (i + 1) (by omega)]
    have hstep : (VEL_THRESHOLD - v) * (i : ℝ) ≤ (VEL_THRESHOLD - v) * ((i + 1 : ℕ) : ℝ) := by
      apply mul_le_mul_of_nonneg_left _ (by linarith)
      push_cast
      linarith
    exact add_le_add_left ((div_le_div_right hdpos).mpr hstep) v
  · intro i hit hi2
    obtain ⟨j, rfl⟩ : ∃ j, i = total + j := ⟨i - total, by omega⟩
    rw [show total + j + 1 = total + (j + 1) by omega, hfall (j + 1) (by omega),
      hfall j (by omega)]
    have hstep : (0 - VEL_THRESHOLD) * ((j + 1 : ℕ) : ℝ) ≤ (0 - VEL_THRESHOLD) * (j : ℝ) := by
      apply mul_le_mul_of_nonpos_left _ (by norm_num [VEL_THRESHOLD])
      push_cast
      linarith
    exact add_le_add_left ((div_le_div_right hdpos).mpr hstep) VEL_THRESHOLD

/-- Witness for C4 (amended) at `current_speed = 3`, `total = 2`. -/
theorem C4_two_phase_full_span_app :
    ((3 : ℝ) < VEL_THRESHOLD ∧ 2 ≤ 2) ∧ twoPhaseFullSpan 3 2 (distribution 3 2) :=
  ⟨⟨by norm_num [VEL_THRESHOLD], le_rfl⟩,
    C4_two_phase_full_span 3 2 (by norm_num [VEL_THRESHOLD]) le_rfl⟩

end WaypointUpdaterModel
